import Mathlib

/-!
Verification development for the alphaAIgent repository: a shallow embedding
of the session-lifecycle logic (rate limiter, webhook ingestion, client
conversation-session cache, session storage, and the conversation-creation
route) together with theorems settling the specification claims.

Conventions of the embedding:
- JavaScript strings that may be absent (undefined/null) are modelled either
  as Option String, or as plain String where the empty string encodes the
  falsy absent value (JS truthiness on strings is nonemptiness).
- Mutable Map objects are modelled as association lists; Map.set is modelled
  by consing, which shadows the old binding under List.lookup.
- Date.now() is passed in explicitly as a parameter called now.
- External crypto primitives (SHA-256, HMAC-SHA256 from node crypto) are
  parameters of the model: the code only compares their outputs.
-/

/-! ## Rate limiter (src/unnamed/part_009, createRateLimiter) -/

/-- Options given to createRateLimiter: windowMs and max. -/
structure RateLimitOptions where
  windowMs : Nat
  max : Nat
deriving DecidableEq

/-- One value of the internal hits map: count and resetAt. -/
structure RateLimitEntry where
  count : Nat
  resetAt : Nat
deriving DecidableEq

/-- The RateLimitResult type returned to the caller. -/
structure RateLimitResult where
  allowed : Bool
  remaining : Nat
  resetAt : Nat
deriving DecidableEq

/-- The body of the closure returned by createRateLimiter, as a state-passing
function over the hits-map entry for the requested key (Option since the key
may be absent).  Mirrors src/unnamed/part_009 lines 15-43: reset when absent
or resetAt has passed; deny leaving the entry unchanged when count has
reached max; otherwise increment. Nat subtraction models Math.max(x - y, 0). -/
def rateLimitStep (options : RateLimitOptions) (now : Nat)
    (existing : Option RateLimitEntry) : RateLimitResult × RateLimitEntry :=
  match existing with
  | none =>
    let resetAt := now + options.windowMs
    ({ allowed := true, remaining := options.max - 1, resetAt := resetAt },
     { count := 1, resetAt := resetAt })
  | some e =>
    if e.resetAt ≤ now then
      let resetAt := now + options.windowMs
      ({ allowed := true, remaining := options.max - 1, resetAt := resetAt },
       { count := 1, resetAt := resetAt })
    else if options.max ≤ e.count then
      ({ allowed := false, remaining := 0, resetAt := e.resetAt }, e)
    else
      ({ allowed := true, remaining := options.max - (e.count + 1), resetAt := e.resetAt },
       { count := e.count + 1, resetAt := e.resetAt })

/-- The three route limiters of src/server/routes.ts lines 9-11. -/
def appConfigLimiter : RateLimitOptions := { windowMs := 60000, max := 120 }

/-- Limiter for POST /api/public/leads. -/
def leadLimiter : RateLimitOptions := { windowMs := 60000, max := 30 }

/-- Limiter for POST /api/conversations. -/
def conversationLimiter : RateLimitOptions := { windowMs := 60000, max := 60 }

/-- Route wiring of limiter to key suffix, from the withRateLimit call sites
in src/server/routes.ts (lines 126, 156, 206). -/
def routeLimiters : List (RateLimitOptions × String) :=
  [(appConfigLimiter, "public-app"), (leadLimiter, "public-lead"),
   (conversationLimiter, "public-conversation")]

/-- JS a or b on strings: b when a is empty (falsy), else a. -/
def jsOr (a b : String) : String := if a = "" then b else a

/-- The rate-limit key built by withRateLimit: (req.ip or unknown) ++ colon ++ suffix. -/
def rateLimitKey (ip keySuffix : String) : String :=
  jsOr ip "unknown" ++ ":" ++ keySuffix

/-- Outcome of the withRateLimit wrapper (src/server/routes.ts lines 90-107):
whether the route proceeds, and the status / Retry-After header set when the
request is denied.  Retry-After is ceil(max(resetAt - now, 0) / 1000), which
over Nat is (resetAt - now + 999) / 1000. -/
structure HttpGateOutcome where
  proceed : Bool
  status : Option Nat
  retryAfterSeconds : Option Nat
deriving DecidableEq

/-- withRateLimit after the limiter has produced its result. -/
def withRateLimit (result : RateLimitResult) (now : Nat) : HttpGateOutcome :=
  if result.allowed then
    { proceed := true, status := none, retryAfterSeconds := none }
  else
    { proceed := false, status := some 429,
      retryAfterSeconds := some ((result.resetAt - now + 999) / 1000) }

/-- Run the limiter over a list of call times for one key, threading the
stored entry; returns the results and the final entry. -/
def runLimiter (options : RateLimitOptions) :
    Option RateLimitEntry → List Nat → List RateLimitResult × Option RateLimitEntry
  | e, [] => ([], e)
  | e, t :: ts =>
    let step := rateLimitStep options t e
    let rest := runLimiter options (some step.2) ts
    (step.1 :: rest.1, rest.2)

/-- Number of admitted requests in a list of limiter results. -/
def countAllowed (rs : List RateLimitResult) : Nat :=
  (rs.filter (fun r => r.allowed)).length

/-! ## Client conversation-session cache (src/client/src/lib/conversationSession.ts) -/

/-- The record the client keeps in localStorage for one conversation. -/
structure StoredConversationSession where
  sessionId : String
  startedAt : Int
  conversationUrl : Option String
deriving DecidableEq

/-- The client session TTL constant (conversationSession.ts line 8):
30 * 60 * 1000 milliseconds. -/
def CLIENT_SESSION_TTL_MS : Nat := 30 * 60 * 1000

/-- getFreshConversationSession (conversationSession.ts lines 71-84), with the
localStorage slot modelled as an Option of the already-parsed record (the
readConversationSession parse) and threaded explicitly.  Returns the result
and the new slot contents: when now - startedAt > ttlMs the slot is cleared
and null returned, otherwise the stored session is returned unchanged.
Times are Int as in JS number arithmetic. -/
def getFreshConversationSession (now ttlMs : Int)
    (stored : Option StoredConversationSession) :
    Option StoredConversationSession × Option StoredConversationSession :=
  match stored with
  | none => (none, none)
  | some s =>
    if now - s.startedAt > ttlMs then (none, none)
    else (some s, some s)

/-! ## Session data model (src/shared/schema.ts and src/server/storage.ts) -/

/-- A stored session row, per mapRowToSession in src/server/storage.ts. -/
structure Session where
  id : String
  appId : Option String
  leadId : Option String
  source : Option String
  conversationId : Option String
  conversationUrl : Option String
  status : Option String
  createdAt : Option Nat
deriving DecidableEq

/-- The sessions table / MemStorage map, keyed by session id. -/
abbrev SessionStore := List (String × Session)

/-- MemStorage.getSessionByConversationId (src/unnamed/part_008): scan the
values of the sessions map for a matching conversationId. -/
def MemStorage.getSessionByConversationId (sessions : SessionStore)
    (conversationId : String) : Option Session :=
  (sessions.map Prod.snd).find? (fun s => s.conversationId == some conversationId)

/-- The SupabaseStorage object (src/server/storage.ts).  The class declares no
sessions field, so on the instance the property sessions is undefined; the
field is modelled as an Option that the constructor leaves at none. -/
structure SupabaseStorageSelf where
  sessions : Option SessionStore

/-- The module-level instance: export const storage = new SupabaseStorage(). -/
def storageInstance : SupabaseStorageSelf := { sessions := none }

/-- SupabaseStorage.getSessionByConversationId (src/server/storage.ts lines
81-88).  The body iterates this.sessions.values(); since the class has no
sessions field, the access this.sessions yields undefined and calling
.values() on it throws a TypeError, modelled as Except.error.  Only when the
field were present would the MemStorage-style scan run. -/
def SupabaseStorage.getSessionByConversationId (self : SupabaseStorageSelf)
    (conversationId : String) : Except String (Option Session) :=
  match self.sessions with
  | none => Except.error "TypeError: this.sessions is undefined"
  | some sessions =>
    Except.ok ((sessions.map Prod.snd).find? (fun s => s.conversationId == some conversationId))

/-! ## Webhook ingestion (src/server/routes.ts lines 45-88 and 398-431) -/

/-- The parts of the incoming webhook request the handler reads: the
x-tavus-signature header (Option: absent when not a string) and the raw body. -/
structure WebhookRequest where
  signatureHeader : Option String
  rawBody : String

/-- Environment and crypto primitives for the webhook handler.  hmacSha256Hex
takes the secret and the raw body and returns the hex digest; sha256Hex takes
the raw body.  webhookSecret is the trimmed TAVUS_WEBHOOK_SECRET (empty when
unconfigured); webhookVerify is whether TAVUS_WEBHOOK_VERIFY equals true;
dedupeTtlMs is WEBHOOK_DEDUPE_TTL_MS. -/
structure WebhookEnv where
  hmacSha256Hex : String → String → String
  sha256Hex : String → String
  webhookSecret : String
  webhookVerify : Bool
  dedupeTtlMs : Nat

/-- Default value of WEBHOOK_DEDUPE_TTL_MS when TAVUS_WEBHOOK_DEDUPE_TTL_MS is
unset or not finite (src/server/routes.ts lines 45-51). -/
def WEBHOOK_DEDUPE_TTL_MS : Nat := 600000

/-- The webhookDedupeStore map: dedupe key to expiry instant. -/
abbrev DedupeStore := List (String × Nat)

/-- getWebhookDedupeKey (src/server/routes.ts lines 54-65): sig: + header when
the header is a nonempty string, otherwise body: + SHA-256 hex of the raw
body.  The TS return type admits null but no path produces it. -/
def getWebhookDedupeKey (env : WebhookEnv) (req : WebhookRequest) : String :=
  match req.signatureHeader with
  | some signature =>
    if signature.length > 0 then "sig:" ++ signature
    else "body:" ++ env.sha256Hex req.rawBody
  | none => "body:" ++ env.sha256Hex req.rawBody

/-- isDuplicateWebhook (src/server/routes.ts lines 67-75): duplicate when the
stored expiry is still in the future (the JS truthiness guard on the stored
number is subsumed by now < existing over Nat); otherwise record
now + TTL for the key and report not-duplicate. -/
def isDuplicateWebhook (env : WebhookEnv) (now : Nat) (store : DedupeStore)
    (key : String) : Bool × DedupeStore :=
  match store.lookup key with
  | some existing =>
    if now < existing then (true, store)
    else (false, (key, now + env.dedupeTtlMs) :: store)
  | none => (false, (key, now + env.dedupeTtlMs) :: store)

/-- verifyWebhookSignature (src/server/routes.ts lines 77-88): false when the
header is absent or empty, else compare it to the HMAC-SHA256 hex of the raw
body under the secret. -/
def verifyWebhookSignature (env : WebhookEnv) (req : WebhookRequest) : Bool :=
  match req.signatureHeader with
  | none => false
  | some signature =>
    if signature.length = 0 then false
    else signature == env.hmacSha256Hex env.webhookSecret req.rawBody

/-- Response of the webhook endpoint.  received and duplicate are false when
the corresponding JSON property is absent. -/
structure WebhookResponse where
  status : Nat
  received : Bool
  duplicate : Bool
  error : Option String
deriving DecidableEq

/-- POST /api/webhook/conversation-ended (src/server/routes.ts lines 398-431).
Order of operations as in the source: compute the dedupe key and run the
dedupe check first (this records the key); then, when a secret is configured
and verification enabled, reject with 401 on a failed signature check; then
log the event and acknowledge.  No branch touches the session store, which is
threaded only to make that explicit. -/
def webhookConversationEnded (env : WebhookEnv) (now : Nat) (store : DedupeStore)
    (sessions : SessionStore) (req : WebhookRequest) :
    WebhookResponse × DedupeStore × SessionStore :=
  let dedupeKey := getWebhookDedupeKey env req
  let dedupe := isDuplicateWebhook env now store dedupeKey
  if dedupe.1 then
    ({ status := 200, received := true, duplicate := true, error := none },
     dedupe.2, sessions)
  else if env.webhookSecret ≠ "" ∧ env.webhookVerify = true ∧ verifyWebhookSignature env req = false then
    ({ status := 401, received := false, duplicate := false, error := some "Invalid signature" },
     dedupe.2, sessions)
  else
    ({ status := 200, received := true, duplicate := false, error := none },
     dedupe.2, sessions)

/-! ## Conversation creation route (src/server/routes.ts lines 204-378) -/

/-- Trimmed environment configuration read inside the handler (routes.ts
lines 221-225).  Empty string means the variable is unset; documentStrategy
carries the balanced default applied at read time. -/
structure ConvEnv where
  apiKey : String
  envReplicaId : String
  envPersonaId : String
  documentStrategy : String
  webhookSecret : String
deriving DecidableEq

/-- The parsed request body (createConversationSchema, routes.ts lines
109-117) together with the two request attributes the handler reads
(req.headers.host and req.secure). -/
structure ConvRequest where
  sessionId : String
  appSlug : Option String
  personaId : Option String
  replicaId : Option String
  documentIds : Option (List String)
  attendeeName : Option String
  source : Option String
  host : Option String
  secure : Bool
deriving DecidableEq

/-- The replica sub-record of a conversation app config. -/
structure ReplicaConfig where
  tavusReplicaId : Option String
  tavusPersonaId : Option String
deriving DecidableEq

/-- ConversationAppConfig (routes.ts lines 496-507), the result of
fetchConversationConfig; rows come from the external database so the value is
a parameter of the model. -/
structure ConversationAppConfig where
  id : String
  slug : String
  companyName : Option String
  productLabel : Option String
  conversationContext : Option String
  customGreeting : Option String
  conversationDurationSeconds : Option Int
  documentStrategy : Option String
  replica : Option ReplicaConfig
  documentIds : List String
deriving DecidableEq

/-- The JSON payload sent to the vendor conversation-creation endpoint
(routes.ts lines 267-298); optional fields are present only when the source
sets the property. -/
structure TavusPayload where
  persona_id : Option String
  replica_id : Option String
  conversation_name : String
  max_call_duration : Int
  participant_left_timeout : Nat
  participant_absent_timeout : Nat
  enable_recording : Bool
  enable_transcription : Bool
  conversational_context : Option String
  custom_greeting : Option String
  document_ids : Option (List String)
  document_retrieval_strategy : Option String
  callback_url : Option String
deriving DecidableEq

/-- Fields of the vendor success response body the handler reads. -/
structure TavusData where
  conversation_url : Option String
  url : Option String
  link : Option String
  conversation_id : Option String
  id : Option String
  status : Option String
deriving DecidableEq

/-- Outcome of the vendor conversation-creation HTTP call, a parameter of the
model: httpError is the non-2xx branch (response status and body text), ok the
2xx branch with the parsed JSON body. -/
inductive TavusResult where
  | httpError (status : Nat) (bodyText : String)
  | ok (data : TavusData)
deriving DecidableEq

/-- The JSON body of the response of POST /api/conversations.  Every property
any branch of the source writes has a field here; a field is none when the
branch does not write the property.  code and reused are fields the
specification claims for this endpoint: no branch of the source writes either,
so both are always none. -/
structure ConvResponse where
  status : Nat
  error : Option String
  message : Option String
  details : Option String
  code : Option String
  sessionId : Option String
  conversationUrl : Option String
  conversationId : Option String
  reused : Option Bool
deriving DecidableEq

/-- A response with the given status and no body fields set. -/
def ConvResponse.base (status : Nat) : ConvResponse :=
  { status := status, error := none, message := none, details := none,
    code := none, sessionId := none, conversationUrl := none,
    conversationId := none, reused := none }

/-- Server-side state the handler touches: the sessions store and the list of
payloads sent to the vendor endpoint (recorded to count vendor calls). -/
structure ConvState where
  sessions : SessionStore
  vendorRequests : List TavusPayload
deriving DecidableEq

/-- The empty server state. -/
def initialConvState : ConvState := { sessions := [], vendorRequests := [] }

/-- JS optional-string coercion: none (undefined/null) to the falsy empty
string. -/
def optStr (o : Option String) : String := o.getD ""

/-- normalizeSource (routes.ts lines 39-43, inlined again at lines 214-216):
trim and lowercase, keep only nfc, qr, link or direct, default direct (also
for a falsy/absent source). -/
def normalizeSource (source : Option String) : String :=
  let validSources := ["nfc", "qr", "link", "direct"]
  let normalized :=
    match source with
    | some s => if s = "" then "direct" else s.trim.toLower
    | none => "direct"
  if validSources.contains normalized then normalized else "direct"

/-- The appConfig value the handler works with: the fetched config when an
appSlug was sent, otherwise null (routes.ts line 235). -/
def effectiveAppConfig (req : ConvRequest) (cfg : Option ConversationAppConfig) :
    Option ConversationAppConfig :=
  if req.appSlug.isSome then cfg else none

/-- effectiveReplicaId (routes.ts lines 240-242): from the app config replica
when a config is in play, else the request value or the environment default. -/
def effectiveReplicaId (env : ConvEnv) (req : ConvRequest)
    (appConfig : Option ConversationAppConfig) : String :=
  match appConfig with
  | some c => optStr (c.replica.bind ReplicaConfig.tavusReplicaId)
  | none => jsOr (optStr req.replicaId) env.envReplicaId

/-- effectivePersonaId (routes.ts lines 243-245). -/
def effectivePersonaId (env : ConvEnv) (req : ConvRequest)
    (appConfig : Option ConversationAppConfig) : String :=
  match appConfig with
  | some c => optStr (c.replica.bind ReplicaConfig.tavusPersonaId)
  | none => jsOr (optStr req.personaId) env.envPersonaId

/-- conversation_url extraction with fallback field names (routes.ts line
331): conversation_url or url or link, empty when all are falsy. -/
def extractConversationUrl (data : TavusData) : String :=
  jsOr (optStr data.conversation_url) (jsOr (optStr data.url) (optStr data.link))

/-- conversation_id extraction with fallback field names (routes.ts line 332). -/
def extractConversationId (data : TavusData) : String :=
  jsOr (optStr data.conversation_id) (optStr data.id)

/-- The POST /api/conversations handler after the rate-limit gate (the gate is
withRateLimit above), as a function of the environment, the clock, the parsed
request, the fetched app config (external database), the vendor call outcome
(external HTTP) and the server state.  Mirrors routes.ts lines 210-378:
missing API key short-circuit, app lookup 404, identifier validation 400,
payload construction, vendor call, vendor-error proxying (the error body is
kept as raw text in details), fallback field extraction, invalid-response 500,
and session persistence via storage.createSession (modelled as a map insert
keyed by the client-sent session id, createdAt set from the clock). -/
def postConversations (env : ConvEnv) (now : Nat) (req : ConvRequest)
    (cfg : Option ConversationAppConfig) (tavus : TavusResult) (st : ConvState) :
    ConvResponse × ConvState :=
  let trafficSource := normalizeSource req.source
  if env.apiKey = "" then
    ({ ConvResponse.base 500 with
       error := some "Server configuration error",
       message := some "TAVUS_API_KEY is not configured. Please contact system administrator." },
     st)
  else if req.appSlug.isSome ∧ cfg.isNone then
    ({ ConvResponse.base 404 with error := some "App not found" }, st)
  else
    let appConfig := effectiveAppConfig req cfg
    let replicaId := effectiveReplicaId env req appConfig
    let personaId := effectivePersonaId env req appConfig
    if personaId = "" ∧ replicaId = "" then
      ({ ConvResponse.base 400 with
         error := some "Missing required identifier",
         message := some (match appConfig with
           | some _ => "App configuration missing Tavus replica or persona ID"
           | none => "Either personaId or replicaId must be provided, or TAVUS_REPLICA_ID/TAVUS_PERSONA_ID must be configured") },
       st)
    else
      let baseLabel :=
        match appConfig with
        | some c => jsOr (optStr c.productLabel) (jsOr (optStr c.companyName) (jsOr c.slug "AI Conversation"))
        | none => "AI Conversation"
      let sessionIdShort := req.sessionId.take 8
      let conversationName :=
        if optStr req.attendeeName ≠ "" then
          baseLabel ++ " - " ++ optStr req.attendeeName ++ " (" ++ trafficSource ++ ") [" ++ sessionIdShort ++ "]"
        else
          baseLabel ++ " (" ++ trafficSource ++ ") [" ++ sessionIdShort ++ "]"
      let maxCallDuration : Int :=
        match appConfig.bind ConversationAppConfig.conversationDurationSeconds with
        | some d => if 0 < d then d else 150
        | none => 150
      let effectiveDocumentIds :=
        match appConfig with
        | some c => some c.documentIds
        | none => req.documentIds
      let hasDocuments :=
        match effectiveDocumentIds with
        | some ids => decide (0 < ids.length)
        | none => false
      let payload : TavusPayload :=
        { persona_id := if personaId = "" then none else some personaId,
          replica_id := if replicaId = "" then none else some replicaId,
          conversation_name := conversationName,
          max_call_duration := maxCallDuration,
          participant_left_timeout := 0,
          participant_absent_timeout := 300,
          enable_recording := false,
          enable_transcription := true,
          conversational_context :=
            match appConfig.bind ConversationAppConfig.conversationContext with
            | some s => if s = "" then none else some s
            | none => none,
          custom_greeting :=
            match appConfig.bind ConversationAppConfig.customGreeting with
            | some s => if s = "" then none else some s
            | none => none,
          document_ids := if hasDocuments then effectiveDocumentIds else none,
          document_retrieval_strategy :=
            if hasDocuments then
              some (jsOr (optStr (appConfig.bind ConversationAppConfig.documentStrategy)) env.documentStrategy)
            else none,
          callback_url :=
            if env.webhookSecret ≠ "" ∧ optStr req.host ≠ "" then
              some ((if req.secure then "https" else "http") ++ "://" ++ optStr req.host ++ "/api/webhook/conversation-ended")
            else none }
      let st1 : ConvState := { st with vendorRequests := st.vendorRequests ++ [payload] }
      match tavus with
      | TavusResult.httpError status bodyText =>
        ({ ConvResponse.base status with
           error := some "Failed to create Tavus conversation",
           details := some bodyText },
         st1)
      | TavusResult.ok data =>
        let conversationUrl := extractConversationUrl data
        let conversationId := extractConversationId data
        if conversationUrl = "" ∨ conversationId = "" then
          ({ ConvResponse.base 500 with
             error := some "Invalid Tavus API response",
             message := some "Missing conversation_url or conversation_id in response" },
           st1)
        else
          let session : Session :=
            { id := req.sessionId,
              appId := appConfig.map ConversationAppConfig.id,
              leadId := none,
              source := some trafficSource,
              conversationId := some conversationId,
              conversationUrl := some conversationUrl,
              status := some (jsOr (optStr data.status) "active"),
              createdAt := some now }
          let st2 : ConvState := { st1 with sessions := (req.sessionId, session) :: st1.sessions }
          ({ ConvResponse.base 200 with
             sessionId := some session.id,
             conversationUrl := some conversationUrl,
             conversationId := some conversationId },
           st2)

/-! ## Helper lemmas about the webhook handler -/

/-- When the dedupe check reports not-duplicate, it has recorded the key with
expiry now + TTL. -/
lemma isDuplicateWebhook_false_snd (env : WebhookEnv) (now : Nat)
    (store : DedupeStore) (key : String)
    (h : (isDuplicateWebhook env now store key).1 = false) :
    (isDuplicateWebhook env now store key).2 = (key, now + env.dedupeTtlMs) :: store := by
  unfold isDuplicateWebhook at h ⊢
  rcases hl : store.lookup key with _ | existing
  · simp only [hl]
  · simp only [hl] at h ⊢
    by_cases hc : now < existing
    · simp [hc] at h
    · simp [hc]

/-- The webhook handler never modifies the session store. -/
lemma webhookConversationEnded_sessions_eq (env : WebhookEnv) (now : Nat)
    (store : DedupeStore) (sessions : SessionStore) (req : WebhookRequest) :
    (webhookConversationEnded env now store sessions req).2.2 = sessions := by
  simp only [webhookConversationEnded]
  split_ifs <;> rfl

/-- The webhook handler always returns the dedupe store produced by the
dedupe check (the key is recorded even on a later 401). -/
lemma webhookConversationEnded_store_eq (env : WebhookEnv) (now : Nat)
    (store : DedupeStore) (sessions : SessionStore) (req : WebhookRequest) :
    (webhookConversationEnded env now store sessions req).2.1
      = (isDuplicateWebhook env now store (getWebhookDedupeKey env req)).2 := by
  simp only [webhookConversationEnded]
  split_ifs <;> rfl

/-- A delivery judged duplicate is acknowledged with received and duplicate. -/
lemma webhookConversationEnded_of_dup (env : WebhookEnv) (now : Nat)
    (store : DedupeStore) (sessions : SessionStore) (req : WebhookRequest)
    (h : (isDuplicateWebhook env now store (getWebhookDedupeKey env req)).1 = true) :
    (webhookConversationEnded env now store sessions req).1
      = { status := 200, received := true, duplicate := true, error := none } := by
  simp [webhookConversationEnded, h]

/-- A non-duplicate delivery failing the enabled signature check is rejected
with 401. -/
lemma webhookConversationEnded_reject (env : WebhookEnv) (now : Nat)
    (store : DedupeStore) (sessions : SessionStore) (req : WebhookRequest)
    (hdup : (isDuplicateWebhook env now store (getWebhookDedupeKey env req)).1 = false)
    (hsec : env.webhookSecret ≠ "") (hver : env.webhookVerify = true)
    (hsig : verifyWebhookSignature env req = false) :
    (webhookConversationEnded env now store sessions req).1
      = { status := 401, received := false, duplicate := false, error := some "Invalid signature" } := by
  simp [webhookConversationEnded, hdup, hsec, hver, hsig]

/-- A non-duplicate delivery that is not rejected is acknowledged. -/
lemma webhookConversationEnded_ack (env : WebhookEnv) (now : Nat)
    (store : DedupeStore) (sessions : SessionStore) (req : WebhookRequest)
    (hdup : (isDuplicateWebhook env now store (getWebhookDedupeKey env req)).1 = false)
    (hno : ¬ (env.webhookSecret ≠ "" ∧ env.webhookVerify = true ∧ verifyWebhookSignature env req = false)) :
    (webhookConversationEnded env now store sessions req).1
      = { status := 200, received := true, duplicate := false, error := none } := by
  simp only [webhookConversationEnded, hdup]
  rw [if_neg (by simp), if_neg hno]

/-- The dedupe key of a request with a nonempty signature header. -/
lemma getWebhookDedupeKey_sig (env : WebhookEnv) (req : WebhookRequest) (sig : String)
    (h : req.signatureHeader = some sig) (hlen : 0 < sig.length) :
    getWebhookDedupeKey env req = "sig:" ++ sig := by
  simp [getWebhookDedupeKey, h, hlen]

/-- A signature header differing from the expected HMAC fails verification. -/
lemma verifyWebhookSignature_of_ne (env : WebhookEnv) (req : WebhookRequest) (sig : String)
    (h : req.signatureHeader = some sig)
    (hne : sig ≠ env.hmacSha256Hex env.webhookSecret req.rawBody) :
    verifyWebhookSignature env req = false := by
  by_cases hl : sig.length = 0 <;> simp [verifyWebhookSignature, h, hl, hne]

/-! ## Concrete demonstration values used by witnesses and counterexamples -/

/-- Stand-in HMAC-SHA256 hex primitive for concrete instantiations (the model
never depends on properties of the digest beyond comparing outputs). -/
def demoHmac : String → String → String := fun secret body => "h:" ++ secret ++ ":" ++ body

/-- Stand-in SHA-256 hex primitive for concrete instantiations. -/
def demoSha : String → String := fun body => "d:" ++ body

/-- A concrete webhook environment with verification enabled. -/
def demoWebhookEnv : WebhookEnv :=
  { hmacSha256Hex := demoHmac, sha256Hex := demoSha, webhookSecret := "topsecret",
    webhookVerify := true, dedupeTtlMs := 600000 }

/-- A concrete delivery whose signature header does not match the HMAC of its
body under the configured secret. -/
def demoEventReq : WebhookRequest :=
  { signatureHeader := some "deadbeef", rawBody := "event" }

/-- A stored session in status active. -/
def demoActiveSession : Session :=
  { id := "s1", appId := none, leadId := none, source := some "qr",
    conversationId := some "c1", conversationUrl := some "https://t/u1",
    status := some "active", createdAt := some 0 }

/-- A session store holding the active session. -/
def demoSessions : SessionStore := [("s1", demoActiveSession)]

/-- The raw body of a termination-type vendor event. -/
def demoEndedEventBody : String := "event_type=system.shutdown conversation_id=c1"

/-- A termination-event delivery with a correctly signed header. -/
def demoEndedReq : WebhookRequest :=
  { signatureHeader := some (demoHmac "topsecret" demoEndedEventBody),
    rawBody := demoEndedEventBody }

/-! ## Claims C6, C10, C3, C4: webhook endpoint -/

/-- C6: the default webhook dedupe TTL is 600000 ms, and for any two
deliveries with the same dedupe key, where the first is not itself judged
duplicate and the second arrives within the dedupe TTL of the first, the
second is acknowledged with status 200, received true and duplicate true, and
neither delivery mutates any session state. -/
theorem C6_webhook_dedupe :
    WEBHOOK_DEDUPE_TTL_MS = 600000 ∧
    ∀ (env : WebhookEnv) (t1 t2 : Nat) (store : DedupeStore)
      (sessions : SessionStore) (r1 r2 : WebhookRequest),
      getWebhookDedupeKey env r2 = getWebhookDedupeKey env r1 →
      (isDuplicateWebhook env t1 store (getWebhookDedupeKey env r1)).1 = false →
      t2 < t1 + env.dedupeTtlMs →
      (webhookConversationEnded env t2
          (webhookConversationEnded env t1 store sessions r1).2.1
          (webhookConversationEnded env t1 store sessions r1).2.2 r2).1
        = { status := 200, received := true, duplicate := true, error := none } ∧
      (webhookConversationEnded env t2
          (webhookConversationEnded env t1 store sessions r1).2.1
          (webhookConversationEnded env t1 store sessions r1).2.2 r2).2.2 = sessions ∧
      (webhookConversationEnded env t1 store sessions r1).2.2 = sessions := by
  refine ⟨rfl, ?_⟩
  intro env t1 t2 store sessions r1 r2 hkey hfresh ht
  have hst1 := webhookConversationEnded_sessions_eq env t1 store sessions r1
  have hsto : (webhookConversationEnded env t1 store sessions r1).2.1
      = (getWebhookDedupeKey env r1, t1 + env.dedupeTtlMs) :: store := by
    rw [webhookConversationEnded_store_eq,
      isDuplicateWebhook_false_snd env t1 store _ hfresh]
  have hdup2 : (isDuplicateWebhook env t2
      ((getWebhookDedupeKey env r1, t1 + env.dedupeTtlMs) :: store)
      (getWebhookDedupeKey env r2)).1 = true := by
    unfold isDuplicateWebhook
    simp only [hkey, List.lookup, beq_self_eq_true]
    simp [ht]
  refine ⟨?_, ?_, hst1⟩
  · rw [hsto]
    exact webhookConversationEnded_of_dup env t2 _ _ r2 hdup2
  · rw [webhookConversationEnded_sessions_eq, hst1]

/-- C6 witness: concrete instantiation with the default TTL, two identical
deliveries 100 ms apart. -/
theorem C6_webhook_dedupe_w :
    (webhookConversationEnded demoWebhookEnv 200
        (webhookConversationEnded demoWebhookEnv 100 [] demoSessions demoEventReq).2.1
        (webhookConversationEnded demoWebhookEnv 100 [] demoSessions demoEventReq).2.2
        demoEventReq).1
      = { status := 200, received := true, duplicate := true, error := none } ∧
    (webhookConversationEnded demoWebhookEnv 200
        (webhookConversationEnded demoWebhookEnv 100 [] demoSessions demoEventReq).2.1
        (webhookConversationEnded demoWebhookEnv 100 [] demoSessions demoEventReq).2.2
        demoEventReq).2.2 = demoSessions ∧
    (webhookConversationEnded demoWebhookEnv 100 [] demoSessions demoEventReq).2.2
      = demoSessions :=
  C6_webhook_dedupe.2 demoWebhookEnv 100 200 [] demoSessions demoEventReq demoEventReq
    rfl (by decide) (by decide)

/-- C10: the dedupe key is recorded before signature verification, so a
delivery with a nonempty non-matching signature header is rejected with 401,
and a replay carrying the same signature header within the dedupe TTL is
acknowledged with 200 received/duplicate instead of being rejected again. -/
theorem C10_dedupe_before_verify :
    ∀ (env : WebhookEnv) (t1 t2 : Nat) (store : DedupeStore)
      (sessions1 sessions2 : SessionStore) (sig : String) (r1 r2 : WebhookRequest),
      r1.signatureHeader = some sig → r2.signatureHeader = some sig →
      0 < sig.length →
      env.webhookSecret ≠ "" → env.webhookVerify = true →
      sig ≠ env.hmacSha256Hex env.webhookSecret r1.rawBody →
      (isDuplicateWebhook env t1 store (getWebhookDedupeKey env r1)).1 = false →
      t2 < t1 + env.dedupeTtlMs →
      (webhookConversationEnded env t1 store sessions1 r1).1
        = { status := 401, received := false, duplicate := false, error := some "Invalid signature" } ∧
      (webhookConversationEnded env t2
          (webhookConversationEnded env t1 store sessions1 r1).2.1 sessions2 r2).1
        = { status := 200, received := true, duplicate := true, error := none } := by
  intro env t1 t2 store sessions1 sessions2 sig r1 r2 h1 h2 hlen hsec hver hne hfresh ht
  have hsig1 : verifyWebhookSignature env r1 = false :=
    verifyWebhookSignature_of_ne env r1 sig h1 hne
  have hkey1 : getWebhookDedupeKey env r1 = "sig:" ++ sig :=
    getWebhookDedupeKey_sig env r1 sig h1 hlen
  have hkey2 : getWebhookDedupeKey env r2 = "sig:" ++ sig :=
    getWebhookDedupeKey_sig env r2 sig h2 hlen
  have hsto : (webhookConversationEnded env t1 store sessions1 r1).2.1
      = (getWebhookDedupeKey env r1, t1 + env.dedupeTtlMs) :: store := by
    rw [webhookConversationEnded_store_eq,
      isDuplicateWebhook_false_snd env t1 store _ hfresh]
  refine ⟨webhookConversationEnded_reject env t1 store sessions1 r1 hfresh hsec hver hsig1, ?_⟩
  have hdup2 : (isDuplicateWebhook env t2
      ((getWebhookDedupeKey env r1, t1 + env.dedupeTtlMs) :: store)
      (getWebhookDedupeKey env r2)).1 = true := by
    unfold isDuplicateWebhook
    simp only [hkey1, hkey2, List.lookup, beq_self_eq_true]
    simp [ht]
  rw [hsto]
  exact webhookConversationEnded_of_dup env t2 _ sessions2 r2 hdup2

/-- C10 witness: a concrete bad-signature delivery is rejected with 401 and
its replay 100 ms later is acknowledged as a duplicate. -/
theorem C10_dedupe_before_verify_w :
    (webhookConversationEnded demoWebhookEnv 100 [] demoSessions demoEventReq).1
      = { status := 401, received := false, duplicate := false, error := some "Invalid signature" } ∧
    (webhookConversationEnded demoWebhookEnv 200
        (webhookConversationEnded demoWebhookEnv 100 [] demoSessions demoEventReq).2.1
        demoSessions demoEventReq).1
      = { status := 200, received := true, duplicate := true, error := none } :=
  C10_dedupe_before_verify demoWebhookEnv 100 200 [] demoSessions demoSessions
    "deadbeef" demoEventReq demoEventReq rfl rfl (by decide) (by decide) rfl
    (by decide) (by decide) (by decide)

/-- C3 counterexample: with verification enabled and a secret configured, a
delivery whose signature header does not match the HMAC of its body is NOT
always answered with 401: the replay of such a delivery within the dedupe TTL
is answered with 200 (duplicate acknowledgment), because the dedupe check runs
and records the key before the signature is verified. -/
theorem C3_counterexample :
    demoWebhookEnv.webhookVerify = true ∧
    demoWebhookEnv.webhookSecret ≠ "" ∧
    demoEventReq.signatureHeader = some "deadbeef" ∧
    "deadbeef" ≠ demoWebhookEnv.hmacSha256Hex demoWebhookEnv.webhookSecret demoEventReq.rawBody ∧
    (webhookConversationEnded demoWebhookEnv 200
        (webhookConversationEnded demoWebhookEnv 100 [] demoSessions demoEventReq).2.1
        demoSessions demoEventReq).1.status = 200 := by
  decide

/-- C3 (amended): with verification enabled and a secret configured, every
delivery whose dedupe key is not already recorded unexpired (in particular
every first delivery) and whose signature does not verify is answered with
status 401, and no session record is updated. -/
theorem C3_first_delivery_bad_sig_401 :
    ∀ (env : WebhookEnv) (now : Nat) (store : DedupeStore)
      (sessions : SessionStore) (req : WebhookRequest),
      env.webhookSecret ≠ "" → env.webhookVerify = true →
      verifyWebhookSignature env req = false →
      (isDuplicateWebhook env now store (getWebhookDedupeKey env req)).1 = false →
      (webhookConversationEnded env now store sessions req).1.status = 401 ∧
      (webhookConversationEnded env now store sessions req).2.2 = sessions := by
  intro env now store sessions req hsec hver hsig hfresh
  refine ⟨?_, webhookConversationEnded_sessions_eq env now store sessions req⟩
  rw [webhookConversationEnded_reject env now store sessions req hfresh hsec hver hsig]

/-- C3 witness: the concrete bad-signature first delivery gets 401 and leaves
the session store unchanged. -/
theorem C3_first_delivery_bad_sig_401_w :
    (webhookConversationEnded demoWebhookEnv 100 [] demoSessions demoEventReq).1.status = 401 ∧
    (webhookConversationEnded demoWebhookEnv 100 [] demoSessions demoEventReq).2.2 = demoSessions :=
  C3_first_delivery_bad_sig_401 demoWebhookEnv 100 [] demoSessions demoEventReq
    (by decide) rfl (by decide) (by decide)

/-- C4 counterexample: a correctly signed, non-duplicate termination-type
event delivery, with a stored session in status active, is acknowledged with
200 but leaves the session store byte-for-byte unchanged: the stored status
stays active and is never set to ended (the handler only logs events). -/
theorem C4_counterexample :
    verifyWebhookSignature demoWebhookEnv demoEndedReq = true ∧
    (webhookConversationEnded demoWebhookEnv 0 [] demoSessions demoEndedReq).1.status = 200 ∧
    (webhookConversationEnded demoWebhookEnv 0 [] demoSessions demoEndedReq).1.received = true ∧
    (webhookConversationEnded demoWebhookEnv 0 [] demoSessions demoEndedReq).2.2 = demoSessions ∧
    demoActiveSession.status = some "active" ∧
    demoActiveSession.status ≠ some "ended" := by
  decide

/-- C4 (amended): the webhook handler performs no session-state update for any
event type; a delivery passing the dedupe and signature checks is simply
acknowledged with status 200 and received true. -/
theorem C4_webhook_updates_no_sessions :
    ∀ (env : WebhookEnv) (now : Nat) (store : DedupeStore)
      (sessions : SessionStore) (req : WebhookRequest),
      (webhookConversationEnded env now store sessions req).2.2 = sessions ∧
      ((isDuplicateWebhook env now store (getWebhookDedupeKey env req)).1 = false →
       ¬ (env.webhookSecret ≠ "" ∧ env.webhookVerify = true ∧ verifyWebhookSignature env req = false) →
       (webhookConversationEnded env now store sessions req).1
         = { status := 200, received := true, duplicate := false, error := none }) := by
  intro env now store sessions req
  refine ⟨webhookConversationEnded_sessions_eq env now store sessions req, ?_⟩
  intro hfresh hno
  exact webhookConversationEnded_ack env now store sessions req hfresh hno

/-- C4 witness: the concrete correctly signed termination event is
acknowledged and the sessions are untouched. -/
theorem C4_webhook_updates_no_sessions_w :
    (webhookConversationEnded demoWebhookEnv 0 [] demoSessions demoEndedReq).2.2 = demoSessions ∧
    (webhookConversationEnded demoWebhookEnv 0 [] demoSessions demoEndedReq).1
      = { status := 200, received := true, duplicate := false, error := none } :=
  ⟨(C4_webhook_updates_no_sessions demoWebhookEnv 0 [] demoSessions demoEndedReq).1,
   (C4_webhook_updates_no_sessions demoWebhookEnv 0 [] demoSessions demoEndedReq).2
     (by decide) (by decide)⟩

/-! ## Claim C8: SupabaseStorage.getSessionByConversationId -/

/-- C8: the claim says the operation totally succeeds; the code instead
throws: the method body iterates this.sessions.values() but the
SupabaseStorage class declares no sessions field (the body was copied from
MemStorage), so on the exported storage instance every call fails with a
TypeError instead of returning the matching session or none. -/
theorem C8_getSessionByConversationId_throws :
    SupabaseStorage.getSessionByConversationId storageInstance "c1"
      = Except.error "TypeError: this.sessions is undefined" ∧
    MemStorage.getSessionByConversationId demoSessions "c1" = some demoActiveSession ∧
    MemStorage.getSessionByConversationId demoSessions "missing" = none :=
  ⟨rfl, by decide, by decide⟩

/-! ## Claim C9: client conversation-session freshness -/

/-- C9 counterexample: the default client session TTL is 30 minutes
(1800000 ms), not the one hour (3600000 ms) the claim states. -/
theorem C9_counterexample : CLIENT_SESSION_TTL_MS ≠ 3600000 := by decide

/-- C9 (amended): the default client session TTL is 1800000 ms (30 minutes),
and getFreshConversationSession returns the stored session exactly when
now - startedAt is at most the TTL, otherwise it clears the stored entry and
returns null. -/
theorem C9_client_session_ttl :
    CLIENT_SESSION_TTL_MS = 1800000 ∧
    ∀ (now ttlMs : Int) (s : StoredConversationSession),
      (now - s.startedAt ≤ ttlMs →
        getFreshConversationSession now ttlMs (some s) = (some s, some s)) ∧
      (ttlMs < now - s.startedAt →
        getFreshConversationSession now ttlMs (some s) = (none, none)) := by
  refine ⟨rfl, ?_⟩
  intro now ttlMs s
  constructor
  · intro h
    simp only [getFreshConversationSession]
    rw [if_neg (not_lt.mpr h)]
  · intro h
    simp only [getFreshConversationSession]
    rw [if_pos h]

/-- A concrete stored client session record started at time 0. -/
def demoStoredSession : StoredConversationSession :=
  { sessionId := "abc-123", startedAt := 0, conversationUrl := some "https://t/u1" }

/-- C9 witness: within the default TTL the stored session is returned; past it
the slot is cleared. -/
theorem C9_client_session_ttl_w :
    getFreshConversationSession 10 1800000 (some demoStoredSession)
      = (some demoStoredSession, some demoStoredSession) ∧
    getFreshConversationSession 2000000 1800000 (some demoStoredSession)
      = (none, none) :=
  ⟨(C9_client_session_ttl.2 10 1800000 demoStoredSession).1 (by decide),
   (C9_client_session_ttl.2 2000000 1800000 demoStoredSession).2 (by decide)⟩

/-! ## Claim C7: rate limiter -/

/-- Counting allowed results distributes over cons. -/
lemma countAllowed_cons (r : RateLimitResult) (rs : List RateLimitResult) :
    countAllowed (r :: rs) = (if r.allowed = true then 1 else 0) + countAllowed rs := by
  simp only [countAllowed, List.filter_cons]
  split <;> simp [Nat.add_comm]

/-- Within one fixed window (all call times before the entry resetAt R), a
run starting from count c admits exactly min (c + n) max - c of the n calls,
and leaves the entry at count min (c + n) max with resetAt unchanged. -/
lemma runLimiter_window (options : RateLimitOptions) (R : Nat) (ts : List Nat) :
    ∀ (c : Nat), c ≤ options.max → (∀ t ∈ ts, t < R) →
      countAllowed (runLimiter options (some { count := c, resetAt := R }) ts).1
          = min (c + ts.length) options.max - c ∧
      (runLimiter options (some { count := c, resetAt := R }) ts).2
          = some { count := min (c + ts.length) options.max, resetAt := R } := by
  induction ts with
  | nil =>
    intro c hc _
    constructor
    · simp only [runLimiter, countAllowed, List.filter_nil, List.length_nil]
      omega
    · simp only [runLimiter, List.length_nil, Nat.add_zero, Nat.min_eq_left hc]
  | cons t ts ih =>
    intro c hc hts
    have ht : t < R := hts t (List.mem_cons_self t ts)
    have hts' : ∀ u ∈ ts, u < R := fun u hu => hts u (List.mem_cons_of_mem t hu)
    simp only [runLimiter, rateLimitStep]
    rw [if_neg (Nat.not_le.mpr ht)]
    by_cases hmax : options.max ≤ c
    · rw [if_pos hmax]
      have hrec := ih c hc hts'
      have hmin1 : min (c + ts.length) options.max = options.max :=
        Nat.min_eq_right (Nat.le_trans hmax (Nat.le_add_right _ _))
      have hmin2 : min (c + (ts.length + 1)) options.max = options.max :=
        Nat.min_eq_right (Nat.le_trans hmax (Nat.le_add_right _ _))
      constructor
      · rw [countAllowed_cons]
        rw [hrec.1, hmin1, List.length_cons, hmin2]
        simp
      · rw [hrec.2, hmin1, List.length_cons, hmin2]
    · rw [if_neg hmax]
      have hc1 : c + 1 ≤ options.max := Nat.succ_le_of_lt (Nat.lt_of_not_le hmax)
      have hrec := ih (c + 1) hc1 hts'
      have hadd : c + 1 + ts.length = c + (ts.length + 1) := by omega
      have hle : c + 1 ≤ min (c + (ts.length + 1)) options.max :=
        le_min (by omega) hc1
      constructor
      · rw [countAllowed_cons]
        rw [hrec.1, hadd, List.length_cons]
        simp only [if_true]
        omega
      · dsimp only
        rw [hrec.2, List.length_cons, hadd]

/-- Starting from no entry, a first call at t0 followed by further calls all
within the window [t0, t0 + windowMs) admits exactly min (n + 1) max of the
n + 1 calls. -/
lemma runLimiter_fresh_window (options : RateLimitOptions) (t0 : Nat) (ts : List Nat)
    (hmax : 1 ≤ options.max) (hts : ∀ t ∈ ts, t < t0 + options.windowMs) :
    countAllowed (runLimiter options none (t0 :: ts)).1
      = min (ts.length + 1) options.max := by
  simp only [runLimiter, rateLimitStep]
  have hrec := runLimiter_window options (t0 + options.windowMs) ts 1 hmax hts
  rw [countAllowed_cons, hrec.1]
  have hcomm : min (1 + ts.length) options.max = min (ts.length + 1) options.max := by
    rw [Nat.add_comm]
  rw [hcomm]
  have hle : 1 ≤ min (ts.length + 1) options.max := le_min (by omega) hmax
  simp only [if_true]
  omega

/-- C7: the three routes use fixed windows of 60000 ms with limits 120, 30 and
60 keyed by client IP and route suffix; within one window the limiter admits
at most max requests (exactly min of the call count and max, starting over at
1 once resetAt has passed); a request beyond the limit gets allowed false and
remaining 0 with the entry unchanged, upon which the route responds 429 with
a Retry-After header of ceil((resetAt - now)/1000) seconds. -/
theorem C7_rate_limiter :
    (routeLimiters
        = [({ windowMs := 60000, max := 120 }, "public-app"),
           ({ windowMs := 60000, max := 30 }, "public-lead"),
           ({ windowMs := 60000, max := 60 }, "public-conversation")] ∧
     rateLimitKey "1.2.3.4" "public-conversation" = "1.2.3.4:public-conversation") ∧
    (∀ (options : RateLimitOptions) (t0 : Nat) (ts : List Nat),
      1 ≤ options.max → (∀ t ∈ ts, t < t0 + options.windowMs) →
      countAllowed (runLimiter options none (t0 :: ts)).1
        = min (ts.length + 1) options.max) ∧
    (∀ (options : RateLimitOptions) (now : Nat) (e : RateLimitEntry),
      options.max ≤ e.count → now < e.resetAt →
      rateLimitStep options now (some e)
          = ({ allowed := false, remaining := 0, resetAt := e.resetAt }, e) ∧
      withRateLimit (rateLimitStep options now (some e)).1 now
          = { proceed := false, status := some 429,
              retryAfterSeconds := some ((e.resetAt - now + 999) / 1000) }) ∧
    (∀ (options : RateLimitOptions) (now : Nat) (e : RateLimitEntry),
      e.resetAt ≤ now →
      rateLimitStep options now (some e)
          = ({ allowed := true, remaining := options.max - 1, resetAt := now + options.windowMs },
             { count := 1, resetAt := now + options.windowMs })) := by
  refine ⟨⟨rfl, rfl⟩, runLimiter_fresh_window, ?_, ?_⟩
  · intro options now e hcount hnow
    have hstep : rateLimitStep options now (some e)
        = ({ allowed := false, remaining := 0, resetAt := e.resetAt }, e) := by
      simp only [rateLimitStep]
      rw [if_neg (Nat.not_le.mpr hnow), if_pos hcount]
    refine ⟨hstep, ?_⟩
    rw [hstep]
    simp [withRateLimit]
  · intro options now e hreset
    simp only [rateLimitStep]
    rw [if_pos hreset]

/-- C7 witness: with limit 2, four calls in one window admit exactly 2; the
third call in-window is denied with remaining 0 and yields a 429 with
Retry-After; after the window has passed counting restarts at 1. -/
theorem C7_rate_limiter_w :
    countAllowed (runLimiter { windowMs := 60000, max := 2 } none (0 :: [1, 2, 3])).1 = 2 ∧
    rateLimitStep { windowMs := 60000, max := 2 } 5 (some { count := 2, resetAt := 60000 })
      = ({ allowed := false, remaining := 0, resetAt := 60000 },
         { count := 2, resetAt := 60000 }) ∧
    withRateLimit (rateLimitStep { windowMs := 60000, max := 2 } 5
        (some { count := 2, resetAt := 60000 })).1 5
      = { proceed := false, status := some 429, retryAfterSeconds := some 60 } ∧
    rateLimitStep { windowMs := 60000, max := 2 } 70000 (some { count := 2, resetAt := 60000 })
      = ({ allowed := true, remaining := 1, resetAt := 130000 },
         { count := 1, resetAt := 130000 }) := by
  refine ⟨?_, ?_, ?_, ?_⟩
  · have h := C7_rate_limiter.2.1 { windowMs := 60000, max := 2 } 0 [1, 2, 3]
      (by decide) (by decide)
    simpa using h
  · exact (C7_rate_limiter.2.2.1 { windowMs := 60000, max := 2 } 5
      { count := 2, resetAt := 60000 } (by decide) (by decide)).1
  · have h := (C7_rate_limiter.2.2.1 { windowMs := 60000, max := 2 } 5
      { count := 2, resetAt := 60000 } (by decide) (by decide)).2
    simpa using h
  · have h := C7_rate_limiter.2.2.2 { windowMs := 60000, max := 2 } 70000
      { count := 2, resetAt := 60000 } (by decide)
    simpa using h

/-! ## Claims C1, C2, C5: POST /api/conversations -/

/-- A concrete server environment: API key set, replica default set. -/
def demoConvEnv : ConvEnv :=
  { apiKey := "k", envReplicaId := "r1", envPersonaId := "",
    documentStrategy := "balanced", webhookSecret := "" }

/-- A concrete request body with only the required sessionId. -/
def demoConvReq : ConvRequest :=
  { sessionId := "abc-123", appSlug := none, personaId := none, replicaId := none,
    documentIds := none, attendeeName := none, source := none, host := none,
    secure := false }

/-- First concrete vendor success response. -/
def demoTavusData1 : TavusData :=
  { conversation_url := some "https://t/u1", url := none, link := none,
    conversation_id := some "c1", id := none, status := none }

/-- Second concrete vendor success response, a different conversation. -/
def demoTavusData2 : TavusData :=
  { conversation_url := some "https://t/u2", url := none, link := none,
    conversation_id := some "c2", id := none, status := none }

/-- First POST /api/conversations call for session abc-123. -/
def c1FirstCall : ConvResponse × ConvState :=
  postConversations demoConvEnv 1000 demoConvReq none
    (TavusResult.ok demoTavusData1) initialConvState

/-- Second POST /api/conversations call for the same session 1000 ms later,
well within any session TTL. -/
def c1SecondCall : ConvResponse × ConvState :=
  postConversations demoConvEnv 2000 demoConvReq none
    (TavusResult.ok demoTavusData2) c1FirstCall.2

/-- C1 counterexample: after a first call has stored a session for abc-123
with status active and conversationUrl/conversationId present, a second call
with the same sessionId 1000 ms later does NOT reuse it: the response carries
no reused flag and a new conversationId, and a second vendor
conversation-creation call is made (the vendor request count goes to 2). -/
theorem C1_counterexample :
    (c1FirstCall.2.sessions.lookup "abc-123").isSome = true ∧
    ((c1FirstCall.2.sessions.lookup "abc-123").bind Session.status) = some "active" ∧
    ((c1FirstCall.2.sessions.lookup "abc-123").bind Session.conversationId) = some "c1" ∧
    ((c1FirstCall.2.sessions.lookup "abc-123").bind Session.conversationUrl) = some "https://t/u1" ∧
    c1FirstCall.2.vendorRequests.length = 1 ∧
    c1SecondCall.1.reused = none ∧
    c1SecondCall.1.conversationId = some "c2" ∧
    c1SecondCall.2.vendorRequests.length = 2 := by
  decide

/-- C1 (amended): the server implements no reuse: every POST /api/conversations
call that passes validation (API key present, app lookup successful, an
identifier resolvable) issues exactly one further vendor conversation-creation
call, regardless of any stored session for the same sessionId, and no response
of this route ever carries a reused flag.  A repeated call with the same
sessionId therefore creates a second vendor conversation. -/
theorem C1_server_always_creates :
    ∀ (env : ConvEnv) (now : Nat) (req : ConvRequest)
      (cfg : Option ConversationAppConfig) (tavus : TavusResult) (st : ConvState),
      env.apiKey ≠ "" →
      ¬ (req.appSlug.isSome ∧ cfg.isNone) →
      ¬ (effectivePersonaId env req (effectiveAppConfig req cfg) = "" ∧
         effectiveReplicaId env req (effectiveAppConfig req cfg) = "") →
      (postConversations env now req cfg tavus st).2.vendorRequests.length
          = st.vendorRequests.length + 1 ∧
      (postConversations env now req cfg tavus st).1.reused = none := by
  intro env now req cfg tavus st h1 h2 h3
  simp only [postConversations]
  rw [if_neg h1, if_neg h2, if_neg h3]
  cases tavus with
  | httpError status bodyText =>
    exact ⟨by simp, rfl⟩
  | ok data =>
    dsimp only
    by_cases hu : extractConversationUrl data = "" ∨ extractConversationId data = ""
    · rw [if_pos hu]
      exact ⟨by simp, rfl⟩
    · rw [if_neg hu]
      exact ⟨by simp, rfl⟩

/-- C1 witness: the concrete first call passes validation, issues one vendor
call and returns no reused flag. -/
theorem C1_server_always_creates_w :
    (postConversations demoConvEnv 1000 demoConvReq none
        (TavusResult.ok demoTavusData1) initialConvState).2.vendorRequests.length
      = initialConvState.vendorRequests.length + 1 ∧
    (postConversations demoConvEnv 1000 demoConvReq none
        (TavusResult.ok demoTavusData1) initialConvState).1.reused = none :=
  C1_server_always_creates demoConvEnv 1000 demoConvReq none
    (TavusResult.ok demoTavusData1) initialConvState
    (by decide) (by decide) (by decide)

/-- The vendor error body of the known concurrency-cap failure. -/
def c2ErrorBody : String := "User has reached " ++ "maximum concurrent conversations"

/-- The concrete call during which the vendor rejects with the
concurrency-cap error. -/
def c2Call : ConvResponse × ConvState :=
  postConversations demoConvEnv 1000 demoConvReq none
    (TavusResult.httpError 400 c2ErrorBody) initialConvState

/-- C2: when the vendor rejects with a body containing the text maximum
concurrent conversations, the route proxies the vendor status and body but
its response contains NO code field at all (code = none), even though the
client error branch tests for code TAVUS_MAX_CONCURRENT
(src/client/src/components/AIConversationInterface.tsx line 396). -/
theorem C2_no_max_concurrent_code :
    c2Call.1.status = 400 ∧
    c2Call.1.error = some "Failed to create Tavus conversation" ∧
    c2Call.1.details = some ("User has reached " ++ "maximum concurrent conversations") ∧
    c2Call.1.code = none := by
  decide

/-- A previously stored session for abc-123 created at time 0. -/
def c5OldSession : Session :=
  { id := "abc-123", appId := none, leadId := none, source := some "qr",
    conversationId := some "c1", conversationUrl := some "https://t/u1",
    status := some "active", createdAt := some 0 }

/-- Server state holding the old session. -/
def c5State : ConvState :=
  { sessions := [("abc-123", c5OldSession)], vendorRequests := [] }

/-- A POST for the same sessionId ten million seconds later (far past any
session TTL). -/
def c5Call : ConvResponse × ConvState :=
  postConversations demoConvEnv 10000000000 demoConvReq none
    (TavusResult.ok demoTavusData2) c5State

/-- C5 counterexample: a call long after the stored session's createdAt does
issue a new vendor creation and return a new conversationId, but no session
status is ever set to expired: the freshly stored record has status active
and no record in the store has status expired. -/
theorem C5_counterexample :
    c5Call.1.conversationId = some "c2" ∧
    c5Call.2.vendorRequests.length = 1 ∧
    ((c5Call.2.sessions.lookup "abc-123").bind Session.status) = some "active" ∧
    ((c5Call.2.sessions.lookup "abc-123").bind Session.status) ≠ some "expired" ∧
    (c5Call.2.sessions.map (fun p => p.2.status)).contains (some "expired") = false := by
  decide

/-- C5 (amended): the server has no TTL logic: a POST with the same sessionId
after any delay issues a new vendor creation call and returns the new
conversationId, and the stored session's status is set to the vendor-reported
status or active, never to expired (expiry is handled client-side by
getFreshConversationSession clearing the local entry). -/
theorem C5_no_expired_transition :
    ∀ (env : ConvEnv) (now : Nat) (req : ConvRequest)
      (cfg : Option ConversationAppConfig) (data : TavusData) (st : ConvState),
      env.apiKey ≠ "" →
      ¬ (req.appSlug.isSome ∧ cfg.isNone) →
      ¬ (effectivePersonaId env req (effectiveAppConfig req cfg) = "" ∧
         effectiveReplicaId env req (effectiveAppConfig req cfg) = "") →
      extractConversationUrl data ≠ "" →
      extractConversationId data ≠ "" →
      (postConversations env now req cfg (TavusResult.ok data) st).2.vendorRequests.length
          = st.vendorRequests.length + 1 ∧
      (postConversations env now req cfg (TavusResult.ok data) st).1.conversationId
          = some (extractConversationId data) ∧
      ((postConversations env now req cfg (TavusResult.ok data) st).2.sessions.lookup
          req.sessionId).bind Session.status
          = some (jsOr (optStr data.status) "active") ∧
      (optStr data.status ≠ "expired" →
        ((postConversations env now req cfg (TavusResult.ok data) st).2.sessions.lookup
            req.sessionId).bind Session.status ≠ some "expired") := by
  intro env now req cfg data st h1 h2 h3 hu hi
  have hcase : ¬ (extractConversationUrl data = "" ∨ extractConversationId data = "") := by
    intro h
    rcases h with h | h
    · exact hu h
    · exact hi h
  have hmain : (postConversations env now req cfg (TavusResult.ok data) st).2.vendorRequests.length
        = st.vendorRequests.length + 1 ∧
      (postConversations env now req cfg (TavusResult.ok data) st).1.conversationId
        = some (extractConversationId data) ∧
      ((postConversations env now req cfg (TavusResult.ok data) st).2.sessions.lookup
          req.sessionId).bind Session.status
        = some (jsOr (optStr data.status) "active") := by
    simp only [postConversations]
    rw [if_neg h1, if_neg h2, if_neg h3]
    rw [if_neg hcase]
    refine ⟨by simp, rfl, ?_⟩
    simp [List.lookup]
  refine ⟨hmain.1, hmain.2.1, hmain.2.2, ?_⟩
  intro hstatus
  rw [hmain.2.2]
  intro hcontra
  have : jsOr (optStr data.status) "active" = "expired" := by
    exact Option.some.inj hcontra
  unfold jsOr at this
  by_cases hempty : optStr data.status = ""
  · rw [if_pos hempty] at this
    exact absurd this (by decide)
  · rw [if_neg hempty] at this
    exact hstatus this

/-- C5 witness: the concrete long-delayed call makes a fresh vendor call,
returns the new conversationId c2 and stores status active, not expired. -/
theorem C5_no_expired_transition_w :
    c5Call.2.vendorRequests.length = c5State.vendorRequests.length + 1 ∧
    c5Call.1.conversationId = some (extractConversationId demoTavusData2) ∧
    ((c5Call.2.sessions.lookup "abc-123").bind Session.status)
        = some (jsOr (optStr demoTavusData2.status) "active") ∧
    ((c5Call.2.sessions.lookup "abc-123").bind Session.status) ≠ some "expired" := by
  have h := C5_no_expired_transition demoConvEnv 10000000000 demoConvReq none
    demoTavusData2 c5State (by decide) (by decide) (by decide) (by decide) (by decide)
  exact ⟨h.1, h.2.1, h.2.2.1, h.2.2.2 (by decide)⟩
